import Mathlib

/-!
Verification development for the data-quality analysis-and-cleaning pipeline
(`backend/modules/`): shallow embedding of the analyzers (`duplicates.py`,
`inconsistencies.py`, `drift.py`), the cleaning stage (`cleaning.py`) and the
quality scorer (`run_pipeline.py:calculate_quality_score`), together with
theorems about the embedded definitions.

Modelling conventions:
- pandas floats are modelled as rationals (`ℚ`); a missing value (`NaN`) is an
  explicit constructor/`Option.none`.
- A DataFrame is row-oriented: a list of column names, a list of column dtypes
  and a list of rows (each row a list of cells).  `reset_index(drop=True)` is
  the identity since rows are purely positional here.
- Report dictionaries become structures holding exactly the fields the
  embedded code reads or writes; free-text suggestion lists and row-sampling
  payloads (`duplicate_groups`, per-issue example values) are omitted since no
  theorem mentions them.
-/

/-! ## Basic list helpers (generic) -/

/-- Keep-first deduplication with an accumulator of already seen elements:
the positional semantics of `pandas.DataFrame.drop_duplicates()` (keep first
occurrence of every value). -/
def dedupFirst {α : Type} [DecidableEq α] (seen : List α) : List α → List α
  | [] => []
  | a :: rest =>
    if a ∈ seen then dedupFirst (a :: seen) rest
    else a :: dedupFirst (a :: seen) rest

/-- Boolean flags of `pandas.DataFrame.duplicated()` (default `keep="first"`):
entry `i` is `true` iff the element appeared at an earlier position. -/
def dupFlags {α : Type} [DecidableEq α] (seen : List α) : List α → List Bool
  | [] => []
  | a :: rest => decide (a ∈ seen) :: dupFlags (a :: seen) rest

/-- Number of elements flagged by `duplicated()` (i.e. `duplicated().sum()`). -/
def duplicatedCount {α : Type} [DecidableEq α] (l : List α) : ℕ :=
  (dupFlags [] l).count true

/-- Number of distinct elements (`nunique` over a list with no missing
entries). -/
def distinctCount {α : Type} [DecidableEq α] (l : List α) : ℕ :=
  (dedupFirst [] l).length

/-- Insert into a sorted list of rationals (ascending). -/
def insSorted (x : ℚ) : List ℚ → List ℚ
  | [] => [x]
  | y :: ys => if x ≤ y then x :: y :: ys else y :: insSorted x ys

/-- Ascending insertion sort on rationals (the sort underlying quantiles,
medians and the Wasserstein distance computation). -/
def sortQ (l : List ℚ) : List ℚ := l.foldr insSorted []

/-! ## Quality scorer (`run_pipeline.py:calculate_quality_score`)

The scorer reads, from the four analyzer reports, exactly: the per-column
missing `percentage` values of `missing_report["details"]`, the
`duplicate_percent`, the `total_outliers` count, and the numbers of columns in
the `strip_issues`, `case_issues` and `special_char_issues` dictionaries of
the inconsistency report.  The embedding takes those projections directly. -/

/-- Per-column missing-data penalty tier of the scorer loop. -/
def missingColPenalty (pct : ℚ) : ℕ :=
  if pct > 20 then 10 else if pct > 5 then 5 else if pct > 0 then 2 else 0

/-- Duplicate penalty tier (single tier, from `duplicate_percent`). -/
def dupPenalty (dupPct : ℚ) : ℕ :=
  if dupPct > 5 then 15 else if dupPct > 1 then 8 else if dupPct > 0 then 3 else 0

/-- Outlier penalty tier (from `total_outliers`). -/
def outlierPenalty (totalOutliers : ℕ) : ℕ :=
  if totalOutliers > 100 then 10 else if totalOutliers > 50 then 5 else 0

/-- Inconsistency penalty tier (from the strip+case+special column count). -/
def incPenalty (issues : ℕ) : ℕ :=
  if issues > 5 then 15 else if issues > 2 then 8 else if issues > 0 then 4 else 0

/-- The running score before the `max(score, 0)` floor: `score = 100` with the
four penalties subtracted in the order the source subtracts them. -/
def rawScore (missingPcts : List ℚ) (dupPct : ℚ) (totalOutliers : ℕ)
    (stripN caseN specialN : ℕ) : ℤ :=
  100 - min ((missingPcts.map missingColPenalty).sum) 30
    - dupPenalty dupPct - outlierPenalty totalOutliers
    - incPenalty (stripN + caseN + specialN)

/-- Grade bands applied to the floored score. -/
def gradeOf (score : ℤ) : String :=
  if score ≥ 90 then "Excellent"
  else if score ≥ 75 then "Good"
  else if score ≥ 60 then "Fair"
  else if score ≥ 40 then "Poor"
  else "Critical"

/-- The dictionary returned by `calculate_quality_score`. -/
structure QualityReport where
  score : ℕ
  grade : String
  missing_data_impact : ℕ
  duplicate_impact : ℕ
  outlier_impact : ℕ
  inconsistency_impact : ℕ
deriving DecidableEq

/-- `calculate_quality_score` (run_pipeline.py, lines 149-213). -/
def calculate_quality_score (missingPcts : List ℚ) (dupPct : ℚ)
    (totalOutliers : ℕ) (stripN caseN specialN : ℕ) : QualityReport :=
  let raw := rawScore missingPcts dupPct totalOutliers stripN caseN specialN
  let score := max raw 0
  { score := score.toNat
    grade := gradeOf score
    missing_data_impact := min ((missingPcts.map missingColPenalty).sum) 30
    duplicate_impact := dupPenalty dupPct
    outlier_impact := outlierPenalty totalOutliers
    inconsistency_impact := incPenalty (stripN + caseN + specialN) }

/-! Spec-side rendering of the scorer, written from the specification text of
section 4.10 ("Start at 100. Missing-data penalty: per affected column add 10
(>20% missing), 5 (>5%), or 2 (>0%), capped in total at 30. ...  Final score
floored at 0. Grade bands: ≥90 Excellent, ≥75 Good, ≥60 Fair, ≥40 Poor, else
Critical."), used to state claim C2 as a refinement. -/

/-- Spec-side missing penalty: sum of per-column tiers, capped in total at 30. -/
def specMissingPenalty (pcts : List ℚ) : ℕ :=
  min 30 ((pcts.map fun p =>
    if p > 20 then (10 : ℕ) else if p > 5 then 5 else if p > 0 then 2 else 0).sum)

/-- Spec-side duplicate penalty: 15 (>5%), 8 (>1%), 3 (>0%), else 0. -/
def specDupPenalty (p : ℚ) : ℕ :=
  if p > 5 then 15 else if p > 1 then 8 else if p > 0 then 3 else 0

/-- Spec-side outlier penalty: 10 if total outliers >100, 5 if >50, else 0. -/
def specOutlierPenalty (t : ℕ) : ℕ :=
  if t > 100 then 10 else if t > 50 then 5 else 0

/-- Spec-side inconsistency penalty from the sum of strip-issue, case-issue
and special-char-issue column counts only: 15 if >5, 8 if >2, 4 if >0. -/
def specIncPenalty (n : ℕ) : ℕ :=
  if n > 5 then 15 else if n > 2 then 8 else if n > 0 then 4 else 0

/-- Spec-side score: 100 minus the four penalties, floored at 0. -/
def specScore (pcts : List ℚ) (dupPct : ℚ) (t : ℕ) (stripN caseN specialN : ℕ) : ℤ :=
  max 0 (100 - specMissingPenalty pcts - specDupPenalty dupPct
    - specOutlierPenalty t - specIncPenalty (stripN + caseN + specialN))

/-- Spec-side grade bands. -/
def specGrade (s : ℤ) : String :=
  if 90 ≤ s then "Excellent"
  else if 75 ≤ s then "Good"
  else if 60 ≤ s then "Fair"
  else if 40 ≤ s then "Poor"
  else "Critical"

/-! ### Helper lemmas for the scorer -/

theorem missingColPenalty_mono {a b : ℚ} (h : a ≤ b) :
    missingColPenalty a ≤ missingColPenalty b := by
  unfold missingColPenalty
  split_ifs <;> first | omega | (exfalso; linarith)

theorem missingPenaltySum_mono {l l' : List ℚ} (h : List.Forall₂ (· ≤ ·) l l') :
    (l.map missingColPenalty).sum ≤ (l'.map missingColPenalty).sum := by
  induction h with
  | nil => simp
  | cons hab _ ih =>
    simp only [List.map_cons, List.sum_cons]
    exact Nat.add_le_add (missingColPenalty_mono hab) ih

theorem dupPenalty_mono {a b : ℚ} (h : a ≤ b) : dupPenalty a ≤ dupPenalty b := by
  unfold dupPenalty
  split_ifs <;> first | omega | (exfalso; linarith)

theorem outlierPenalty_mono {a b : ℕ} (h : a ≤ b) :
    outlierPenalty a ≤ outlierPenalty b := by
  unfold outlierPenalty
  split_ifs <;> omega

theorem incPenalty_mono {a b : ℕ} (h : a ≤ b) : incPenalty a ≤ incPenalty b := by
  unfold incPenalty
  split_ifs <;> omega

theorem dupPenalty_le (p : ℚ) : dupPenalty p ≤ 15 := by
  unfold dupPenalty; split_ifs <;> omega

theorem outlierPenalty_le (t : ℕ) : outlierPenalty t ≤ 10 := by
  unfold outlierPenalty; split_ifs <;> omega

theorem incPenalty_le (n : ℕ) : incPenalty n ≤ 15 := by
  unfold incPenalty; split_ifs <;> omega

theorem rawScore_ge_30 (ps : List ℚ) (dp : ℚ) (t sn cn spn : ℕ) :
    30 ≤ rawScore ps dp t sn cn spn := by
  unfold rawScore
  have h1 : min ((ps.map missingColPenalty).sum) 30 ≤ 30 := min_le_right _ _
  have h2 := dupPenalty_le dp
  have h3 := outlierPenalty_le t
  have h4 := incPenalty_le (sn + cn + spn)
  omega

theorem rawScore_le_100 (ps : List ℚ) (dp : ℚ) (t sn cn spn : ℕ) :
    rawScore ps dp t sn cn spn ≤ 100 := by
  unfold rawScore
  omega

/-- C2. The quality score equals 100 minus the missing-data penalty (10/5/2
per column by >20%/>5%/>0% missing, capped at 30), the single-tier duplicate
penalty (15/8/3 by >5%/>1%/>0%), the outlier penalty (10 if >100, 5 if >50),
and the inconsistency penalty from strip+case+special issue columns only
(15 if >5, 8 if >2, 4 if >0); the result is floored at 0 and graded
Excellent ≥90, Good ≥75, Fair ≥60, Poor ≥40, else Critical. -/
theorem quality_score_matches_spec (ps : List ℚ) (dp : ℚ) (t sn cn spn : ℕ) :
    ((calculate_quality_score ps dp t sn cn spn).score : ℤ)
      = specScore ps dp t sn cn spn ∧
    (calculate_quality_score ps dp t sn cn spn).grade
      = specGrade (specScore ps dp t sn cn spn) := by
  have hraw : rawScore ps dp t sn cn spn
      = 100 - specMissingPenalty ps - specDupPenalty dp
        - specOutlierPenalty t - specIncPenalty (sn + cn + spn) := by
    unfold rawScore specMissingPenalty specDupPenalty specOutlierPenalty
      specIncPenalty dupPenalty outlierPenalty incPenalty missingColPenalty
    rw [min_comm]
  have hmax : max (rawScore ps dp t sn cn spn) 0
      = specScore ps dp t sn cn spn := by
    unfold specScore
    rw [hraw, max_comm]
  constructor
  · show ((max (rawScore ps dp t sn cn spn) 0).toNat : ℤ) = _
    rw [hmax]
    have h0 : 0 ≤ specScore ps dp t sn cn spn := by
      unfold specScore; exact le_max_left 0 _
    exact Int.toNat_of_nonneg h0
  · show gradeOf (max (rawScore ps dp t sn cn spn) 0) = _
    rw [hmax]
    unfold gradeOf specGrade
    simp only [ge_iff_le]

/-- C3. The quality score is monotonically non-increasing when the per-column
missing percentages, the duplicate percentage, the total outlier count, or
the inconsistency-issue count increase (others fixed), and the score always
lies in [0, 100] (the score is a natural number, so 0 ≤ score holds by type).  -/
theorem quality_score_monotone_bounded (ps ps' : List ℚ) (dp dp' : ℚ)
    (t t' sn cn spn sn' cn' spn' : ℕ)
    (hps : List.Forall₂ (· ≤ ·) ps ps') (hdp : dp ≤ dp') (ht : t ≤ t')
    (hinc : sn + cn + spn ≤ sn' + cn' + spn') :
    (calculate_quality_score ps' dp' t' sn' cn' spn').score
      ≤ (calculate_quality_score ps dp t sn cn spn).score ∧
    (calculate_quality_score ps dp t sn cn spn).score ≤ 100 := by
  constructor
  · show (max (rawScore ps' dp' t' sn' cn' spn') 0).toNat
        ≤ (max (rawScore ps dp t sn cn spn) 0).toNat
    apply Int.toNat_le_toNat
    apply max_le_max _ le_rfl
    unfold rawScore
    have h1 : min ((ps.map missingColPenalty).sum) 30
        ≤ min ((ps'.map missingColPenalty).sum) 30 :=
      min_le_min (missingPenaltySum_mono hps) le_rfl
    have h2 := dupPenalty_mono hdp
    have h3 := outlierPenalty_mono ht
    have h4 := incPenalty_mono hinc
    omega
  · show (max (rawScore ps dp t sn cn spn) 0).toNat ≤ 100
    have h1 := rawScore_le_100 ps dp t sn cn spn
    omega

/-- C3 witness: concrete instance of the monotonicity-and-bounds theorem. -/
theorem quality_score_monotone_bounded_witness :
    (calculate_quality_score [25] 6 101 3 2 2).score
      ≤ (calculate_quality_score [1] 0 0 0 0 0).score ∧
    (calculate_quality_score [1] 0 0 0 0 0).score ≤ 100 :=
  quality_score_monotone_bounded [1] [25] 0 6 0 101 0 0 0 3 2 2
    (List.Forall₂.cons (by norm_num) List.Forall₂.nil)
    (by norm_num) (by omega) (by omega)

/-- C10. The four penalties are bounded by 30+15+10+15 = 70, so the score is
always at least 30 (and at most 100); the floor `max(score, 0)` is never the
binding constraint; and the grade "Critical" (score < 40) is only reachable
for scores in [30, 39]. -/
theorem quality_score_min_30 (ps : List ℚ) (dp : ℚ) (t sn cn spn : ℕ) :
    30 ≤ (calculate_quality_score ps dp t sn cn spn).score ∧
    (calculate_quality_score ps dp t sn cn spn).score ≤ 100 ∧
    min ((ps.map missingColPenalty).sum) 30 + dupPenalty dp
      + outlierPenalty t + incPenalty (sn + cn + spn) ≤ 70 ∧
    max (rawScore ps dp t sn cn spn) 0 = rawScore ps dp t sn cn spn ∧
    ((calculate_quality_score ps dp t sn cn spn).grade = "Critical" →
      30 ≤ (calculate_quality_score ps dp t sn cn spn).score ∧
      (calculate_quality_score ps dp t sn cn spn).score < 40) := by
  have hraw30 := rawScore_ge_30 ps dp t sn cn spn
  have hraw100 := rawScore_le_100 ps dp t sn cn spn
  have hmax : max (rawScore ps dp t sn cn spn) 0 = rawScore ps dp t sn cn spn :=
    max_eq_left (by omega)
  have hscore : (calculate_quality_score ps dp t sn cn spn).score
      = (rawScore ps dp t sn cn spn).toNat := by
    show (max (rawScore ps dp t sn cn spn) 0).toNat = _
    rw [hmax]
  refine ⟨?_, ?_, ?_, hmax, ?_⟩
  · rw [hscore]; omega
  · rw [hscore]; omega
  · have h1 : min ((ps.map missingColPenalty).sum) 30 ≤ 30 := min_le_right _ _
    have h2 := dupPenalty_le dp
    have h3 := outlierPenalty_le t
    have h4 := incPenalty_le (sn + cn + spn)
    omega
  · intro hg
    refine ⟨by rw [hscore]; omega, ?_⟩
    by_contra hlt
    push_neg at hlt
    have hge : (40 : ℤ) ≤ max (rawScore ps dp t sn cn spn) 0 := by
      rw [hmax]
      have : (40 : ℕ) ≤ (rawScore ps dp t sn cn spn).toNat := by
        rw [hscore] at hlt; exact hlt
      omega
    have : (calculate_quality_score ps dp t sn cn spn).grade ≠ "Critical" := by
      show gradeOf (max (rawScore ps dp t sn cn spn) 0) ≠ "Critical"
      unfold gradeOf
      split_ifs <;> simp_all
    exact this hg

/-- C10 witness: a concrete input reaching grade "Critical" with score 30. -/
theorem quality_score_min_30_witness :
    30 ≤ (calculate_quality_score [25, 25, 25] 6 101 3 2 2).score ∧
    (calculate_quality_score [25, 25, 25] 6 101 3 2 2).score < 40 := by
  have h := quality_score_min_30 [25, 25, 25] 6 101 3 2 2
  exact h.2.2.2.2 (by decide)

/-! ## Tabular dataset model

pandas DataFrames are modelled row-oriented: parallel lists of column names
and column dtypes, plus a list of rows.  A cell is a rational (numeric and
datetime values), a string, a boolean, or the explicit missing marker `null`
(`NaN`; pandas hashing treats `NaN` as equal to `NaN` in `duplicated`,
matching decidable equality here). -/

inductive Cell where
  | num (q : ℚ)
  | str (s : String)
  | bool (b : Bool)
  | null
deriving DecidableEq

inductive DType where
  | numeric
  | text
  | datetime
  | boolean
deriving DecidableEq

abbrev Row := List Cell

structure Df where
  colNames : List String
  colTypes : List DType
  rows : List Row
deriving DecidableEq

/-- Cells of column `j`, read positionally from every row. -/
def getColCells (df : Df) (j : ℕ) : List Cell :=
  df.rows.map fun r => r.getD j Cell.null

/-- `duplicated().sum()` over the rows of a dataframe. -/
def duplicateCount (rows : List Row) : ℕ := duplicatedCount rows

/-! ### String helpers (Python `str.lower` and substring containment) -/

/-- Whether the first list starts with the second. -/
def startsW : List Char → List Char → Bool
  | _, [] => true
  | [], _ :: _ => false
  | c :: cs, p :: ps => (c = p) && startsW cs ps

/-- Whether `pat` occurs as a contiguous sublist of `l`. -/
def listContainsSub (l pat : List Char) : Bool :=
  match l with
  | [] => startsW [] pat
  | _ :: cs => startsW l pat || listContainsSub cs pat

/-- Python `pat in s` substring containment. -/
def strContains (s pat : String) : Bool := listContainsSub s.data pat.data

/-- Python `s.lower()` (ASCII case folding). -/
def strLower (s : String) : String := ⟨s.data.map Char.toLower⟩

/-! ## Duplicate analyzer (`duplicates.py:analyze_duplicates`)

The embedding keeps the fields the claims mention: `duplicate_count`,
`duplicate_percent`, `total_rows`, `unique_rows`, `severity` and the optional
`subset_duplicates` finding.  `duplicate_groups` (positional row sampling) and
the free-text `suggestions` list are omitted: no claim mentions them. -/

/-- Python `round(x, 2)` (banker's rounding at the half-way point). -/
def pyRound2 (q : ℚ) : ℚ :=
  let x := q * 100
  let f := ⌊x⌋
  let frac := x - f
  (if frac > 1/2 then f + 1
   else if frac < 1/2 then f
   else if f % 2 = 0 then f else f + 1) / 100

/-- Severity thresholds of `analyze_duplicates.get_severity`. -/
def dupSeverity (pct : ℚ) : String :=
  if pct = 0 then "None"
  else if pct < 1 then "Low"
  else if pct < 5 then "Medium"
  else "High"

/-- The `subset_duplicates` finding ("More duplicates found when ignoring ID
columns"). -/
structure SubsetDupFinding where
  columns_checked : List String
  duplicate_count : ℕ
deriving DecidableEq

/-- The duplicate analyzer's report. -/
structure DupReport where
  duplicate_count : ℕ
  duplicate_percent : ℚ
  total_rows : ℕ
  unique_rows : ℕ
  severity : String
  subset_duplicates : Option SubsetDupFinding
deriving DecidableEq

/-- Positions of the columns whose name does not contain "id" or "index"
(case-insensitive substring match) — the `important_cols` selection. -/
def importantIdxs (df : Df) : List ℕ :=
  (List.range df.colNames.length).filter fun j =>
    let nm := strLower (df.colNames.getD j "")
    !(strContains nm "id") && !(strContains nm "index")

/-- The rows projected to the `important_cols` positions (the subset used by
`df.duplicated(subset=important_cols, keep=False)`). -/
def projRows (df : Df) : List Row :=
  df.rows.map fun r => (importantIdxs df).map fun j => r.getD j Cell.null

/-- `duplicated(keep=False).sum()`: the number of rows that occur at least
twice. -/
def dupKeepFalseCount (rows : List Row) : ℕ :=
  rows.countP fun r => 2 ≤ rows.countP (fun r2 => decide (r2 = r))

/-- The `subset_duplicates` computation of `analyze_duplicates` (duplicates.py,
lines 12-23): present iff some non-identifier column exists and the
`keep=False` duplicate count over those columns exceeds the exact keep-first
duplicate count. -/
def subsetDuplicatesOf (df : Df) : Option SubsetDupFinding :=
  if (importantIdxs df).length > 0 then
    if dupKeepFalseCount (projRows df) > duplicateCount df.rows then
      some { columns_checked := (importantIdxs df).map fun j => df.colNames.getD j ""
             duplicate_count := dupKeepFalseCount (projRows df) }
    else none
  else none

/-- `analyze_duplicates` (duplicates.py, lines 4-75). -/
def analyze_duplicates (df : Df) : DupReport :=
  let total_rows := df.rows.length
  let dc := duplicateCount df.rows
  let pct : ℚ := if total_rows > 0 then (dc : ℚ) / total_rows * 100 else 0
  { duplicate_count := dc
    duplicate_percent := pyRound2 pct
    total_rows := total_rows
    unique_rows := total_rows - dc
    severity := dupSeverity pct
    subset_duplicates := subsetDuplicatesOf df }

/-! ### Counting lemmas for keep-first duplicate flags -/

theorem dupFlags_add_dedupFirst_length {α : Type} [DecidableEq α]
    (seen : List α) (l : List α) :
    (dupFlags seen l).count true + (dedupFirst seen l).length = l.length := by
  induction l generalizing seen with
  | nil => simp [dupFlags, dedupFirst]
  | cons a rest ih =>
    by_cases h : a ∈ seen
    · simp [dupFlags, dedupFirst, h]
      have := ih (a :: seen)
      omega
    · simp [dupFlags, dedupFirst, h]
      have := ih (a :: seen)
      omega

theorem dedupFirst_sound {α : Type} [DecidableEq α] (seen : List α)
    (l : List α) :
    (dedupFirst seen l).Nodup ∧ ∀ a ∈ dedupFirst seen l, a ∉ seen := by
  induction l generalizing seen with
  | nil => simp [dedupFirst]
  | cons a rest ih =>
    by_cases h : a ∈ seen
    · simp only [dedupFirst, if_pos h]
      obtain ⟨h1, h2⟩ := ih (a :: seen)
      exact ⟨h1, fun b hb => fun hbs => h2 b hb (List.mem_cons_of_mem a hbs)⟩
    · simp only [dedupFirst, if_neg h]
      obtain ⟨h1, h2⟩ := ih (a :: seen)
      constructor
      · refine List.nodup_cons.mpr ⟨?_, h1⟩
        intro hmem
        exact h2 a hmem (List.mem_cons_self a seen)
      · intro b hb hbs
        rcases List.mem_cons.mp hb with hb | hb
        · exact h (hb ▸ hbs)
        · exact h2 b hb (List.mem_cons_of_mem a hbs)

theorem dupFlags_count_zero {α : Type} [DecidableEq α] (seen : List α)
    (l : List α) (hnd : l.Nodup) (hdisj : ∀ a ∈ l, a ∉ seen) :
    (dupFlags seen l).count true = 0 := by
  induction l generalizing seen with
  | nil => simp [dupFlags]
  | cons a rest ih =>
    have ha : a ∉ seen := hdisj a (List.mem_cons_self a rest)
    simp only [dupFlags, decide_eq_true_eq]
    rw [List.count_cons]
    have hrest : (dupFlags (a :: seen) rest).count true = 0 := by
      apply ih (a :: seen) (List.Nodup.of_cons hnd)
      intro b hb hbs
      rcases List.mem_cons.mp hbs with hb' | hb'
      · exact (List.nodup_cons.mp hnd).1 (hb' ▸ hb)
      · exact hdisj b (List.mem_cons_of_mem a hb) hb'
    rw [hrest]
    simp [ha]

theorem duplicatedCount_add_distinct {α : Type} [DecidableEq α] (l : List α) :
    duplicatedCount l + distinctCount l = l.length :=
  dupFlags_add_dedupFirst_length [] l

theorem duplicatedCount_le_length {α : Type} [DecidableEq α] (l : List α) :
    duplicatedCount l ≤ l.length := by
  have := duplicatedCount_add_distinct l
  omega

theorem duplicatedCount_dedupFirst {α : Type} [DecidableEq α] (l : List α) :
    duplicatedCount (dedupFirst [] l) = 0 := by
  obtain ⟨h1, _⟩ := dedupFirst_sound [] l
  exact dupFlags_count_zero [] _ h1 (by simp)

/-- C9. The duplicate analyzer's report satisfies
`unique_rows + duplicate_count = total_rows` (equivalently
`unique_rows = total_rows - duplicate_count` over the integers),
`duplicate_count ≤ total_rows`, `total_rows` is the dataset's row count, and
`unique_rows` is the number of distinct rows.  Counts are naturals, so
`0 ≤ duplicate_count` holds by type. -/
theorem analyze_duplicates_invariant (df : Df) :
    (analyze_duplicates df).unique_rows + (analyze_duplicates df).duplicate_count
      = (analyze_duplicates df).total_rows ∧
    (analyze_duplicates df).duplicate_count ≤ (analyze_duplicates df).total_rows ∧
    (analyze_duplicates df).total_rows = df.rows.length ∧
    (analyze_duplicates df).unique_rows = distinctCount df.rows := by
  have hle : duplicateCount df.rows ≤ df.rows.length :=
    duplicatedCount_le_length df.rows
  have hadd := duplicatedCount_add_distinct df.rows
  refine ⟨?_, ?_, rfl, ?_⟩
  · show df.rows.length - duplicateCount df.rows + duplicateCount df.rows
      = df.rows.length
    omega
  · exact hle
  · show df.rows.length - duplicateCount df.rows = distinctCount df.rows
    unfold duplicateCount at hadd ⊢
    omega

/-- Concrete dataset for claim C5: a single non-identifier column with one
duplicated pair of rows. -/
def dfC5 : Df :=
  { colNames := ["a"]
    colTypes := [DType.numeric]
    rows := [[Cell.num 1], [Cell.num 1]] }

/-- C5 counterexample.  On `dfC5` every column is a non-identifier column, so
ignoring identifier columns reveals no additional duplicated rows (the
projected rows are the full rows), yet the analyzer still reports the
`subset_duplicates` finding, because the subset count uses `keep=False`
(2 here) while the exact count uses keep-first (1 here). -/
theorem subset_duplicates_counterexample :
    (analyze_duplicates dfC5).subset_duplicates.isSome = true ∧
    projRows dfC5 = dfC5.rows ∧
    dupKeepFalseCount (projRows dfC5) = dupKeepFalseCount dfC5.rows ∧
    (analyze_duplicates dfC5).duplicate_count = 1 ∧
    dupKeepFalseCount (projRows dfC5) = 2 := by
  refine ⟨?_, ?_, ?_, ?_, ?_⟩ <;> decide

/-- C5 (amended).  Provided at least one column survives the identifier
filter, the `subset_duplicates` finding is reported if and only if the number
of rows belonging to duplicate groups of the projected (non-identifier)
columns — counting every member of each group, `keep=False` — strictly
exceeds the exact full-row duplicate count, which counts only the non-first
occurrences (`rows - distinct rows`).  Because the two counts use different
conventions, the finding can be present even when ignoring identifier columns
reveals no additional duplicated rows. -/
theorem subset_duplicates_iff (df : Df) (h : importantIdxs df ≠ []) :
    (analyze_duplicates df).subset_duplicates.isSome = true ↔
      df.rows.length - distinctCount df.rows
        < (projRows df).countP
            (fun r => 2 ≤ (projRows df).countP (fun r2 => decide (r2 = r))) := by
  have hadd := duplicatedCount_add_distinct df.rows
  have hdc : df.rows.length - distinctCount df.rows = duplicateCount df.rows := by
    unfold duplicateCount at hadd ⊢
    omega
  have hlen : (importantIdxs df).length > 0 := List.length_pos.mpr h
  have hpr : (analyze_duplicates df).subset_duplicates = subsetDuplicatesOf df := rfl
  rw [hpr, hdc]
  unfold subsetDuplicatesOf
  rw [if_pos hlen]
  unfold dupKeepFalseCount
  by_cases hc : duplicateCount df.rows
      < (projRows df).countP
          (fun r => 2 ≤ (projRows df).countP (fun r2 => decide (r2 = r)))
  · rw [if_pos hc]
    simp [hc]
  · rw [if_neg hc]
    simp [hc]

/-- C5 witness: the amended equivalence evaluated on the concrete dataset
`dfC5`. -/
theorem subset_duplicates_iff_witness :
    (analyze_duplicates dfC5).subset_duplicates.isSome = true ↔
      dfC5.rows.length - distinctCount dfC5.rows
        < (projRows dfC5).countP
            (fun r => 2 ≤ (projRows dfC5).countP (fun r2 => decide (r2 = r))) :=
  subset_duplicates_iff dfC5 (by decide)

/-! ## Cleaning stage (`cleaning.py`)

The five ordered transforms of `clean_dataset`: missing-value imputation,
duplicate handling, dtype fixes, text normalization, outlier handling, plus
optional constant-column removal.  `reset_index(drop=True)` is the identity
in the positional row model. -/

/-- Whether a cell is the missing marker. -/
def cellIsNull : Cell → Bool
  | Cell.null => true
  | _ => false

/-- The numeric values of a column, missing entries dropped (`dropna`). -/
def numsOf (cs : List Cell) : List ℚ :=
  cs.filterMap fun c =>
    match c with
    | Cell.num q => some q
    | _ => none

/-- pandas `Series.median()`: middle of the sorted non-null values, averaging
the two middle elements for even length; `NaN` (`none`) on an empty series. -/
def medianQ (xs : List ℚ) : Option ℚ :=
  let s := sortQ xs
  let m := s.length
  if m = 0 then none
  else if m % 2 = 1 then some (s.getD (m / 2) 0)
  else some ((s.getD (m / 2 - 1) 0 + s.getD (m / 2) 0) / 2)

/-- pandas `Series.mean()`; `NaN` (`none`) on an empty series. -/
def meanQ (xs : List ℚ) : Option ℚ :=
  if xs.length = 0 then none else some (xs.sum / xs.length)

/-- The numeric fill value chosen by `impute_missing_values`: the
`if/elif/elif/else` chain on the strategy string, the `else` arm falling back
to the median. -/
def numericFill (strategy : String) (xs : List ℚ) : Option ℚ :=
  if strategy = "median" then medianQ xs
  else if strategy = "mean" then meanQ xs
  else if strategy = "zero" then some 0
  else medianQ xs

/-- Lexicographic comparison of character lists (Python string `<=`). -/
def listLeChar : List Char → List Char → Bool
  | [], _ => true
  | _ :: _, [] => false
  | c :: cs, d :: ds => if c < d then true else if d < c then false else listLeChar cs ds

/-- Cross-constructor rank used to totalize the cell order (well-typed pandas
columns only ever compare cells of one constructor). -/
def cellRank : Cell → ℕ
  | Cell.null => 0
  | Cell.bool _ => 1
  | Cell.num _ => 2
  | Cell.str _ => 3

/-- Total order on cells: value order inside a constructor, rank across. -/
def cellLe (a b : Cell) : Bool :=
  match a, b with
  | Cell.num x, Cell.num y => decide (x ≤ y)
  | Cell.str x, Cell.str y => listLeChar x.data y.data
  | Cell.bool x, Cell.bool y => !x || y
  | _, _ => decide (cellRank a ≤ cellRank b)

/-- Occurrence counts of the distinct values of a list, in first-occurrence
order (`value_counts` without its sort, which no claim depends on). -/
def valueCounts {α : Type} [DecidableEq α] (l : List α) : List (α × ℕ) :=
  (dedupFirst [] l).map fun v => (v, l.countP fun w => decide (w = v))

/-- pandas `Series.mode(dropna=True)[0]`: the smallest among the most frequent
non-null values (`mode` returns the modal values sorted ascending); `none`
when every value is missing. -/
def modeCell (cs : List Cell) : Option Cell :=
  let vc := valueCounts (cs.filter fun c => !(cellIsNull c))
  let mx := (vc.map Prod.snd).foldr max 0
  match (vc.filter fun p => p.2 = mx).map Prod.fst with
  | [] => none
  | c :: rest => some (rest.foldl (fun acc x => if cellLe x acc then x else acc) c)

/-- `fillna(method='ffill')`: replace each missing cell by the last non-null
cell seen so far (missing stays missing before the first non-null). -/
def ffillCells (last : Option Cell) : List Cell → List Cell
  | [] => []
  | c :: rest =>
    if c = Cell.null then (last.getD Cell.null) :: ffillCells last rest
    else c :: ffillCells (some c) rest

/-- `fillna(method='bfill')`: forward fill on the reversed list. -/
def bfillCells (cs : List Cell) : List Cell :=
  (ffillCells none cs.reverse).reverse

/-- Replace the cells of column `j` positionally. -/
def setColCells (df : Df) (j : ℕ) (cs : List Cell) : Df :=
  { df with rows := df.rows.zipWith (fun r c => r.set j c) cs }

/-- Replace every missing cell of a column by a fill value (`fillna(value)`). -/
def fillNulls (cs : List Cell) (v : Cell) : List Cell :=
  cs.map fun c => if c = Cell.null then v else c

/-- One iteration of the `impute_missing_values` column loop (cleaning.py,
lines 38-68): skip when the column has no missing cell, otherwise dispatch on
the column dtype. -/
def imputeCol (strategy : String) (df : Df) (j : ℕ) : Df :=
  if (getColCells df j).countP (fun c => decide (c = Cell.null)) = 0 then df
  else
    match df.colTypes.getD j DType.text with
    | DType.numeric =>
      match numericFill strategy (numsOf (getColCells df j)) with
      | some f => setColCells df j (fillNulls (getColCells df j) (Cell.num f))
      | none => df
    | DType.datetime =>
      setColCells df j (bfillCells (ffillCells none (getColCells df j)))
    | _ =>
      match modeCell (getColCells df j) with
      | some m => setColCells df j (fillNulls (getColCells df j) m)
      | none => setColCells df j (fillNulls (getColCells df j) (Cell.str "Unknown"))

/-- `impute_missing_values` (cleaning.py, lines 34-70). -/
def impute_missing_values (df : Df) (strategy : String) : Df :=
  (List.range df.colNames.length).foldl (imputeCol strategy) df

/-- The slice of the duplicate report read by `handle_duplicates`: the
`severity` value (`.get("severity", "Low")`; a dict missing the key is
modelled by passing "Low").  `Option.none` models a `duplicate_report` that
is not a dict with a `duplicate_count` key. -/
structure CleanDupReport where
  severity : String
deriving DecidableEq

/-- Append a boolean marker column. -/
def addBoolCol (df : Df) (nm : String) (flags : List Bool) : Df :=
  { colNames := df.colNames ++ [nm]
    colTypes := df.colTypes ++ [DType.boolean]
    rows := df.rows.zipWith (fun r b => r ++ [Cell.bool b]) flags }

/-- `df["_is_duplicate"] = df.duplicated()`. -/
def flagDuplicatesDf (df : Df) : Df :=
  addBoolCol df "_is_duplicate" (dupFlags [] df.rows)

/-- `df.drop_duplicates().reset_index(drop=True)`. -/
def dropDuplicatesDf (df : Df) : Df :=
  { df with rows := dedupFirst [] df.rows }

/-- `handle_duplicates` (cleaning.py, lines 6-31). -/
def handle_duplicates (df : Df) (rep : Option CleanDupReport) (strategy : String) : Df :=
  match rep with
  | none => flagDuplicatesDf df
  | some r =>
    if strategy = "keep" then df
    else if strategy = "flag" then flagDuplicatesDf df
    else if strategy = "remove" then dropDuplicatesDf df
    else if strategy = "auto" then
      if r.severity = "High" || r.severity = "Medium" then dropDuplicatesDf df
      else flagDuplicatesDf df
    else df

/-- The slice of the data-type report read by `fix_data_types`. -/
structure DtypeReport where
  possible_date_columns : List String
  float_int_candidates : List String
deriving DecidableEq

/-- Numeric value of a digit string (all characters known to be digits). -/
def digitsToNat (l : List Char) : ℕ :=
  l.foldl (fun acc c => acc * 10 + (c.toNat - '0'.toNat)) 0

/-- Models `pd.to_datetime` on an ISO `YYYY-MM-DD` string: the parsed date is
encoded as the number `y*10000 + m*100 + d`; anything else fails (and is
coerced to missing by the caller). -/
def parseIsoDate (s : String) : Option ℚ :=
  match s.splitOn "-" with
  | [y, m, d] =>
    if y.data.length = 4 && m.data.length = 2 && d.data.length = 2
        && y.data.all Char.isDigit && m.data.all Char.isDigit
        && d.data.all Char.isDigit then
      some ((digitsToNat y.data * 10000 + digitsToNat m.data * 100
        + digitsToNat d.data : ℕ) : ℚ)
    else none
  | _ => none

/-- `pd.to_datetime(col, errors='coerce')` cell-wise: unparseable values
become missing. -/
def toDatetimeCell (c : Cell) : Cell :=
  match c with
  | Cell.str s =>
    match parseIsoDate s with
    | some q => Cell.num q
    | none => Cell.null
  | Cell.num q => Cell.num q
  | Cell.null => Cell.null
  | Cell.bool _ => Cell.null

/-- First position of a column label (`col in cleaned.columns` lookup). -/
def findColIdx (df : Df) (nm : String) : Option ℕ :=
  df.colNames.findIdx? fun n => n == nm

/-- Replace the cells and dtype of column `j`. -/
def setColTyped (df : Df) (j : ℕ) (cs : List Cell) (t : DType) : Df :=
  { df with colTypes := df.colTypes.set j t
            rows := df.rows.zipWith (fun r c => r.set j c) cs }

/-- Date-parsing step of `fix_data_types` for one report column. -/
def fixDateCol (df : Df) (nm : String) : Df :=
  match findColIdx df nm with
  | none => df
  | some j => setColTyped df j ((getColCells df j).map toDatetimeCell) DType.datetime

/-- Nullable-integer step of `fix_data_types` for one report column: the
`astype('Int64')` cast changes neither the cell values nor the modelled dtype
family (`int64` and `Int64` are both `DType.numeric`), and a failing cast is
swallowed leaving the column unchanged — the dataframe is unchanged either
way. -/
def fixIntCol (df : Df) (nm : String) : Df :=
  match findColIdx df nm with
  | none => df
  | some _ => df

/-- `fix_data_types` (cleaning.py, lines 73-96). -/
def fix_data_types (df : Df) (rep : DtypeReport) : Df :=
  rep.float_int_candidates.foldl fixIntCol
    (rep.possible_date_columns.foldl fixDateCol df)

/-- Python whitespace class (`\s` over ASCII, and `str.strip`'s default). -/
def pyspace (c : Char) : Bool :=
  c = ' ' || c = '\t' || c = '\n' || c = '\r' || c = '\x0b' || c = '\x0c'

/-- Leading and trailing whitespace removal (`str.strip()`). -/
def stripChars (l : List Char) : List Char :=
  ((l.dropWhile pyspace).reverse.dropWhile pyspace).reverse

/-- `str.strip()` on a string. -/
def pyStrip (s : String) : String := ⟨stripChars s.data⟩

/-- One step of whitespace-run collapapsing, consumed by a right fold. -/
def collapseStep (c : Char) (acc : List Char) : List Char :=
  if pyspace c then
    match acc with
    | ' ' :: _ => acc
    | _ => ' ' :: acc
  else c :: acc

/-- `re.sub(r'\s+', ' ', s)`: every whitespace run becomes a single space. -/
def collapseWs (l : List Char) : List Char := l.foldr collapseStep []

def isAsciiLetter (c : Char) : Bool := ('a' ≤ c && c ≤ 'z') || ('A' ≤ c && c ≤ 'Z')

def isAsciiDigit (c : Char) : Bool := '0' ≤ c && c ≤ '9'

/-- The character class kept by `re.sub(r'[^a-zA-Z0-9\s]', '', s)`. -/
def isAlnumOrSpace (c : Char) : Bool := isAsciiLetter c || isAsciiDigit c || pyspace c

/-- `astype(str)` cell-wise: pandas renders a missing value as the string
"nan"; booleans as "True"/"False".  (The numeric rendering stands in for
Python's float formatting; it is never reached on genuine text columns.) -/
def cellToStr : Cell → String
  | Cell.str s => s
  | Cell.null => "nan"
  | Cell.bool b => if b then "True" else "False"
  | Cell.num q => toString q

/-- The per-value transform of `normalize_text_columns`: strip, then either
lower-case and drop special characters (aggressive) or collapse internal
whitespace runs. -/
def normValue (aggressive : Bool) (s : String) : String :=
  if aggressive then ⟨((strLower (pyStrip s)).data.filter isAlnumOrSpace)⟩
  else ⟨collapseWs (pyStrip s).data⟩

/-- One column of `normalize_text_columns`: applied to `object`-dtype (text)
columns only. -/
def normalizeTextCol (aggressive : Bool) (df : Df) (j : ℕ) : Df :=
  match df.colTypes.getD j DType.text with
  | DType.text =>
    setColCells df j ((getColCells df j).map fun c =>
      Cell.str (normValue aggressive (cellToStr c)))
  | _ => df

/-- `normalize_text_columns` (cleaning.py, lines 99-121). -/
def normalize_text_columns (df : Df) (aggressive : Bool) : Df :=
  (List.range df.colNames.length).foldl (normalizeTextCol aggressive) df

/-- The slice of the outlier report read by `handle_outliers`. -/
structure OutlierReport where
  numeric_columns : List String
deriving DecidableEq

/-- pandas `Series.quantile(q)` over an ascending-sorted non-empty list:
linear interpolation at position `(len-1)*q`. -/
def quantileSorted (s : List ℚ) (q : ℚ) : ℚ :=
  let h := ((s.length : ℚ) - 1) * q
  let i := (⌊h⌋).toNat
  let lo := s.getD i 0
  lo + (h - (i : ℚ)) * (s.getD (i + 1) lo - lo)

/-- The 1.5×IQR bounds recomputed by `handle_outliers` for one column;
`none` when the column has no numeric value (`Q1`/`Q3` are `NaN`). -/
def colBounds (df : Df) (j : ℕ) : Option (ℚ × ℚ) :=
  if (numsOf (getColCells df j)).length = 0 then none
  else
    let s := sortQ (numsOf (getColCells df j))
    let q1 := quantileSorted s (1/4)
    let q3 := quantileSorted s (3/4)
    some (q1 - 3/2 * (q3 - q1), q3 + 3/2 * (q3 - q1))

/-- `Series.clip(lower, upper)` cell-wise; missing cells stay missing. -/
def clipCell (lb ub : ℚ) : Cell → Cell
  | Cell.num x => Cell.num (min (max x lb) ub)
  | c => c

/-- One iteration of the `handle_outliers` column loop (cleaning.py, lines
132-172).  Non-numeric columns raise inside the `try` and are skipped whole;
with all-`NaN` bounds, `clip` is a no-op while `remove`'s comparisons are all
`False`, dropping every row. -/
def outlierStep (method : String) (df : Df) (nm : String) : Df :=
  match findColIdx df nm with
  | none => df
  | some j =>
    match df.colTypes.getD j DType.text with
    | DType.text => df
    | DType.boolean => df
    | _ =>
      if method = "clip" then
        match colBounds df j with
        | none => df
        | some (lb, ub) => setColCells df j ((getColCells df j).map (clipCell lb ub))
      else if method = "flag" then
        match colBounds df j with
        | none => addBoolCol df (nm ++ "_is_outlier") (df.rows.map fun _ => false)
        | some (lb, ub) =>
          addBoolCol df (nm ++ "_is_outlier")
            ((getColCells df j).map fun c =>
              match c with
              | Cell.num x => decide (x < lb) || decide (ub < x)
              | _ => false)
      else if method = "remove" then
        match colBounds df j with
        | none => { df with rows := [] }
        | some (lb, ub) =>
          { df with rows := df.rows.filter fun r =>
              match r.getD j Cell.null with
              | Cell.num x => decide (lb ≤ x) && decide (x ≤ ub)
              | _ => false }
      else df

/-- `reset_index(drop=True)`: the identity on the positional row model. -/
def resetIndexDf (df : Df) : Df := df

/-- `handle_outliers` (cleaning.py, lines 124-174). -/
def handle_outliers (df : Df) (rep : Option OutlierReport) (method : String) : Df :=
  match rep with
  | none => df
  | some r => resetIndexDf (r.numeric_columns.foldl (outlierStep method) df)

/-- `nunique()` of one column (missing values not counted). -/
def nuniqueCol (df : Df) (j : ℕ) : ℕ :=
  distinctCount ((getColCells df j).filter fun c => !(cellIsNull c))

/-- `remove_constant_columns` (cleaning.py, lines 177-188). -/
def remove_constant_columns (df : Df) : Df :=
  let keep := (List.range df.colNames.length).filter fun j => nuniqueCol df j ≠ 1
  { colNames := keep.map fun j => df.colNames.getD j ""
    colTypes := keep.map fun j => df.colTypes.getD j DType.text
    rows := df.rows.map fun r => keep.map fun j => r.getD j Cell.null }

/-- `clean_dataset` (cleaning.py, lines 191-228): the fixed transform order
impute → duplicates → dtype fixes → text normalization → outliers → constant
columns → reindex.  The `inconsistency_report` parameter is accepted and
ignored exactly as in the source; the `if dtype_report:`/`if outlier_report:`
guards are the `Option` matches. -/
def clean_dataset (df : Df) (dtype_report : Option DtypeReport)
    (inconsistency_report : Option Unit) (outlier_report : Option OutlierReport)
    (duplicate_report : Option CleanDupReport)
    (duplicate_strategy missing_strategy outlier_method : String)
    (normalize_text remove_constants : Bool) : Df :=
  let c1 := impute_missing_values df missing_strategy
  let c2 := handle_duplicates c1 duplicate_report duplicate_strategy
  let c3 := match dtype_report with
    | some r => fix_data_types c2 r
    | none => c2
  let c4 := if normalize_text then normalize_text_columns c3 false else c3
  let c5 := match outlier_report with
    | some r => handle_outliers c4 (some r) outlier_method
    | none => c4
  let c6 := if remove_constants then remove_constant_columns c5 else c5
  resetIndexDf c6

/-! ### Theorems about the cleaning stage -/

/-- Concrete dataset for claim C1: one text column whose two rows differ only
by trailing whitespace, so they are not full-row duplicates before cleaning. -/
def dfC1 : Df :=
  { colNames := ["a"]
    colTypes := [DType.text]
    rows := [[Cell.str "x"], [Cell.str "x "]] }

/-- C1 counterexample.  With `duplicate_strategy="remove"` and every other
option at its default (in particular `normalize_text=True`), cleaning `dfC1`
yields a dataset with one exact full-row duplicate: deduplication runs before
text normalization, and stripping " x " to "x" re-creates a duplicate pair.
The input itself had no duplicates at all. -/
theorem clean_remove_counterexample :
    duplicateCount (clean_dataset dfC1 none none none (some { severity := "None" })
      "remove" "median" "clip" true false).rows = 1 ∧
    duplicateCount dfC1.rows = 0 := by
  constructor <;> decide

theorem foldlCongr {β : Type} {f g : Df → β → Df} (h : ∀ d b, f d b = g d b) :
    ∀ (l : List β) (d : Df), l.foldl f d = l.foldl g d := by
  intro l
  induction l with
  | nil => intro d; rfl
  | cons b rest ih =>
    intro d
    simp only [List.foldl_cons, h d b, ih]

/-- C1 (amended).  Cleaning with `duplicate_strategy="remove"` and text
normalization disabled (all other options at their defaults) produces a
cleaned dataset with zero exact full-row duplicates; with the default
`normalize_text=True` the count can be positive, because whitespace
normalization runs after deduplication and can merge distinct rows. -/
theorem clean_remove_no_normalize_dupfree (df : Df) (rep : CleanDupReport) :
    duplicateCount (clean_dataset df none none none (some rep)
      "remove" "median" "clip" false false).rows = 0 := by
  have h1 : clean_dataset df none none none (some rep)
      "remove" "median" "clip" false false
      = dropDuplicatesDf (impute_missing_values df "median") := rfl
  rw [h1]
  exact duplicatedCount_dedupFirst _

/-! Row-count lemmas for `handle_outliers` (claim C7). -/

theorem getColCells_length (df : Df) (j : ℕ) :
    (getColCells df j).length = df.rows.length := by
  simp [getColCells]

theorem setColCells_length (df : Df) (j : ℕ) (cs : List Cell)
    (h : cs.length = df.rows.length) :
    (setColCells df j cs).rows.length = df.rows.length := by
  simp [setColCells, h]

theorem outlierStep_clip_length (df : Df) (nm : String) :
    (outlierStep "clip" df nm).rows.length = df.rows.length := by
  unfold outlierStep
  split
  · rfl
  · split
    · rfl
    · rfl
    · rw [if_pos rfl]
      split
      · rfl
      · apply setColCells_length
        rw [List.length_map, getColCells_length]

theorem outlierStep_remove_length (df : Df) (nm : String) :
    (outlierStep "remove" df nm).rows.length ≤ df.rows.length := by
  unfold outlierStep
  split
  · exact le_rfl
  · split
    · exact le_rfl
    · exact le_rfl
    · rw [if_neg (show ¬("remove" = "clip") by decide),
        if_neg (show ¬("remove" = "flag") by decide), if_pos rfl]
      split
      · simp
      · exact List.length_filter_le _ _

theorem foldl_outlierStep_clip_length (cols : List String) (df : Df) :
    ((cols.foldl (outlierStep "clip") df).rows.length = df.rows.length) := by
  induction cols generalizing df with
  | nil => rfl
  | cons c rest ih =>
    rw [List.foldl_cons, ih (outlierStep "clip" df c), outlierStep_clip_length]

theorem foldl_outlierStep_remove_length (cols : List String) (df : Df) :
    ((cols.foldl (outlierStep "remove") df).rows.length ≤ df.rows.length) := by
  induction cols generalizing df with
  | nil => exact le_rfl
  | cons c rest ih =>
    rw [List.foldl_cons]
    exact le_trans (ih (outlierStep "remove" df c)) (outlierStep_remove_length df c)

/-- C7. The outlier-handling transform with `method="clip"` returns a dataset
with exactly as many rows as its input, and with `method="remove"` a dataset
with at most as many rows, for every dataset and every outlier report
(including a missing report, which is passed through). -/
theorem handle_outliers_row_counts (df : Df) (rep : Option OutlierReport) :
    (handle_outliers df rep "clip").rows.length = df.rows.length ∧
    (handle_outliers df rep "remove").rows.length ≤ df.rows.length := by
  cases rep with
  | none => exact ⟨rfl, le_rfl⟩
  | some r =>
    constructor
    · show (resetIndexDf (r.numeric_columns.foldl (outlierStep "clip") df)).rows.length
        = df.rows.length
      exact foldl_outlierStep_clip_length r.numeric_columns df
    · show (resetIndexDf (r.numeric_columns.foldl (outlierStep "remove") df)).rows.length
        ≤ df.rows.length
      exact foldl_outlierStep_remove_length r.numeric_columns df

/-! Imputation fallback (claim C8). -/

theorem numericFill_unknown (s : String) (h1 : s ≠ "median") (h2 : s ≠ "mean")
    (h3 : s ≠ "zero") (xs : List ℚ) :
    numericFill s xs = numericFill "median" xs := by
  unfold numericFill
  rw [if_neg h1, if_neg h2, if_neg h3, if_pos rfl]

theorem imputeCol_unknown (s : String) (h1 : s ≠ "median") (h2 : s ≠ "mean")
    (h3 : s ≠ "zero") (df : Df) (j : ℕ) :
    imputeCol s df j = imputeCol "median" df j := by
  unfold imputeCol
  rw [numericFill_unknown s h1 h2 h3]

/-- C8. For every dataset and every imputation strategy string outside
{median, mean, zero}, the imputation step returns exactly the result of
running it with strategy "median" (the `else` arm of the strategy chain).
The embedded function is total, mirroring the source's per-column
`try/except` that prevents any exception from escaping. -/
theorem impute_unknown_strategy_eq_median (df : Df) (s : String)
    (h1 : s ≠ "median") (h2 : s ≠ "mean") (h3 : s ≠ "zero") :
    impute_missing_values df s = impute_missing_values df "median" := by
  unfold impute_missing_values
  exact foldlCongr (fun d j => imputeCol_unknown s h1 h2 h3 d j) _ df

/-- Concrete dataset for the C8 witness: a numeric column with a missing
value. -/
def dfC8 : Df :=
  { colNames := ["v"]
    colTypes := [DType.numeric]
    rows := [[Cell.num 1], [Cell.null], [Cell.num 3]] }

/-- C8 witness: the unrecognized strategy "bogus" behaves as "median" on a
concrete dataset. -/
theorem impute_unknown_strategy_eq_median_witness :
    impute_missing_values dfC8 "bogus" = impute_missing_values dfC8 "median" :=
  impute_unknown_strategy_eq_median dfC8 "bogus" (by decide) (by decide) (by decide)

/-! ## Inconsistency analyzer (`inconsistencies.py:analyze_inconsistencies`)

The analyzer operates on the text/categorical columns only; a column is
`(name, values)` with explicit missing entries.  Per-column the six finding
types are computed on the non-null values (`dropna().astype(str)`); the
per-column payload dictionaries are reduced to the lists of flagged column
names materialized in `strip_issues`, ..., `inconsistent_formats` (the
lengths of those dictionaries are all any claim reads). -/

abbrev TextCol := String × List (Option String)

/-- The non-null values of a text column (`dropna().astype(str)`). -/
def colVals (col : TextCol) : List String := col.2.filterMap id

/-- Leading/trailing-whitespace finding: some value differs from its strip. -/
def stripIssue (vs : List String) : Bool :=
  vs.any fun v => !(pyStrip v == v)

/-- Case-insensitive-duplicate finding: lower-casing merges distinct values. -/
def caseIssue (vs : List String) : Bool :=
  distinctCount (vs.map strLower) < distinctCount vs

/-- Whether a value contains a character outside `[a-zA-Z0-9\s]`. -/
def hasSpecialChar (s : String) : Bool :=
  s.data.any fun c => !(isAlnumOrSpace c)

/-- Special-character finding: some value has a special character. -/
def specialIssue (vs : List String) : Bool :=
  vs.any hasSpecialChar

def hasLetter (s : String) : Bool := s.data.any isAsciiLetter

def hasDigit (s : String) : Bool := s.data.any isAsciiDigit

/-- Mixed-alphanumeric finding: values containing both a letter and a digit
affect more than 0% and less than 90% of the values
(`mixed_count < len * 0.9` over the rationals is `10*count < 9*len`). -/
def mixedIssue (vs : List String) : Bool :=
  let m := vs.countP fun v => hasLetter v && hasDigit v
  decide (0 < m) && decide (10 * m < 9 * vs.length)

/-- Rare-category finding: values occurring fewer than 5 times exist but are
fewer than half of the distinct values (`len(rare) < len(value_counts)*0.5`
is `2*rare < distinct`). -/
def rareIssue (vs : List String) : Bool :=
  let vc := valueCounts vs
  let rare := vc.filter fun p => p.2 < 5
  decide (0 < rare.length) && decide (2 * rare.length < vc.length)

/-- Length-variance finding (`inconsistent_formats`): the sample standard
deviation of the value lengths (ddof=1; `NaN`, hence no finding, for fewer
than two values) exceeds half the mean length, and the column has more than
10 distinct values.  Since both sides are non-negative, `std > mean/2` is
compared as `variance > (mean/2)^2`, which is exact over `ℚ`. -/
def lenVarIssue (vs : List String) : Bool :=
  let n := vs.length
  if n ≤ 1 then false
  else
    let lens : List ℚ := vs.map fun v => (v.length : ℚ)
    let m := lens.sum / (n : ℚ)
    let v1 := (lens.map fun l => (l - m) * (l - m)).sum / ((n : ℚ) - 1)
    decide (v1 > (m / 2) * (m / 2)) && decide (distinctCount vs > 10)

/-- The `summary` block of the inconsistency report. -/
structure InconsSummary where
  total_categorical_columns : ℕ
  columns_with_issues : ℕ
  severity : String
deriving DecidableEq

/-- The inconsistency report.  `summary = none` models the early return for
datasets without categorical columns, whose `summary` is the plain string
"No categorical columns found" and which carries no severity (that early
return also omits the `inconsistent_formats` key; all lists are empty there
either way). -/
structure InconsReport where
  summary : Option InconsSummary
  strip_issues : List String
  case_issues : List String
  special_char_issues : List String
  mixed_alphanumeric : List String
  rare_categories : List String
  inconsistent_formats : List String
deriving DecidableEq

/-- Severity thresholds on `total_issues` (inconsistencies.py, lines
130-137). -/
def sevOfTotal (t : ℕ) : String :=
  if t = 0 then "None"
  else if t ≤ 2 then "Low"
  else if t ≤ 5 then "Medium"
  else "High"

/-- `analyze_inconsistencies` (inconsistencies.py, lines 5-152).  The severity
total sums the column counts of five finding types — `inconsistent_formats`
is materialized but not counted. -/
def analyze_inconsistencies (cols : List TextCol) : InconsReport :=
  if cols.length = 0 then
    { summary := none, strip_issues := [], case_issues := []
      special_char_issues := [], mixed_alphanumeric := []
      rare_categories := [], inconsistent_formats := [] }
  else
    let stripCols := (cols.filter fun c => stripIssue (colVals c)).map Prod.fst
    let caseCols := (cols.filter fun c => caseIssue (colVals c)).map Prod.fst
    let specialCols := (cols.filter fun c => specialIssue (colVals c)).map Prod.fst
    let mixedCols := (cols.filter fun c => mixedIssue (colVals c)).map Prod.fst
    let rareCols := (cols.filter fun c => rareIssue (colVals c)).map Prod.fst
    let lenVarCols := (cols.filter fun c => lenVarIssue (colVals c)).map Prod.fst
    let total := stripCols.length + caseCols.length + specialCols.length
      + mixedCols.length + rareCols.length
    { summary := some { total_categorical_columns := cols.length
                        columns_with_issues := total
                        severity := sevOfTotal total }
      strip_issues := stripCols
      case_issues := caseCols
      special_char_issues := specialCols
      mixed_alphanumeric := mixedCols
      rare_categories := rareCols
      inconsistent_formats := lenVarCols }

/-- The issue-column total as claim C4 words it ("for each finding type the
analyzer detects, the number of distinct columns exhibiting that finding,
summed across the finding types"): all six finding types. -/
def issueColumnsSix (cols : List TextCol) : ℕ :=
  cols.countP (fun c => stripIssue (colVals c))
    + cols.countP (fun c => caseIssue (colVals c))
    + cols.countP (fun c => specialIssue (colVals c))
    + cols.countP (fun c => mixedIssue (colVals c))
    + cols.countP (fun c => rareIssue (colVals c))
    + cols.countP (fun c => lenVarIssue (colVals c))

/-- The issue-column total the code actually uses: the same per-type distinct
column counts, but over five of the six finding types, excluding the
length-variance (`inconsistent_formats`) type. -/
def issueColumnsFive (cols : List TextCol) : ℕ :=
  cols.countP (fun c => stripIssue (colVals c))
    + cols.countP (fun c => caseIssue (colVals c))
    + cols.countP (fun c => specialIssue (colVals c))
    + cols.countP (fun c => mixedIssue (colVals c))
    + cols.countP (fun c => rareIssue (colVals c))

/-- Concrete dataset for claim C4: one text column with 11 distinct
letter-only lowercase values of lengths 1..11.  Only the length-variance
finding fires (variance 11 > (mean/2)^2 = 9, distinct 11 > 10); no strip,
case, special-character, mixed or rare-category finding does (all counts are
1, so rare categories are not fewer than half the distinct values). -/
def exC4 : List TextCol :=
  [("c", [some "a", some "bb", some "ccc", some "dddd", some "eeeee",
    some "ffffff", some "ggggggg", some "hhhhhhhh", some "iiiiiiiii",
    some "jjjjjjjjjj", some "kkkkkkkkkkk"])]

/-- C4 counterexample.  On `exC4` the analyzer reports severity "None", but
the claim's issue-column total over all six finding types is 1, which the
claim maps to severity "Low": the code's total excludes the
`inconsistent_formats` finding type. -/
theorem inconsistency_severity_counterexample :
    ((analyze_inconsistencies exC4).summary.map InconsSummary.severity)
      ≠ some (sevOfTotal (issueColumnsSix exC4)) ∧
    ((analyze_inconsistencies exC4).summary.map InconsSummary.severity)
      = some "None" ∧
    sevOfTotal (issueColumnsSix exC4) = "Low" ∧
    (analyze_inconsistencies exC4).inconsistent_formats = ["c"] := by
  refine ⟨?_, ?_, ?_, ?_⟩ <;> with_unfolding_all decide

/-- C4 (amended).  For every dataset with at least one text/categorical
column, the reported severity is None when the issue-column total is 0, Low
when ≤2, Medium when ≤5, High otherwise — where the total sums, over five of
the six finding types (whitespace, case, special-character,
mixed-alphanumeric, rare-category, excluding the length-variance type), the
number of distinct columns exhibiting that finding (a column triggering two
of those types counts twice). -/
theorem inconsistency_severity_five_types (cols : List TextCol)
    (h : cols ≠ []) :
    ((analyze_inconsistencies cols).summary.map InconsSummary.severity)
      = some (sevOfTotal (issueColumnsFive cols)) := by
  have hlen : ¬(cols.length = 0) := fun h0 => h (List.length_eq_zero.mp h0)
  unfold analyze_inconsistencies
  rw [if_neg hlen]
  simp only [Option.map_some']
  congr 1
  unfold issueColumnsFive
  simp only [List.length_map, List.countP_eq_length_filter]

/-- C4 witness: the amended severity equation evaluated on the concrete
dataset `exC4` (whose five-type total is 0, severity "None"). -/
theorem inconsistency_severity_five_types_witness :
    ((analyze_inconsistencies exC4).summary.map InconsSummary.severity)
      = some (sevOfTotal (issueColumnsFive exC4)) :=
  inconsistency_severity_five_types exC4 (by decide)

/-! ## Drift analyzer (`drift.py:analyze_drift`), numeric-column slice

The claims concern the per-numeric-column drift details.  A dataset is the
list of its numeric columns `(name, nullable values)`; the set-intersection
of the two schemas becomes a name filter (order is not observed by any
claim).  The categorical PSI block, the dataset-level severity votes and the
suggestion strings are outside every claim and are not modelled; the
`std_old`/`std_new`/`std_drift` fields require a square root (irrational)
and are likewise omitted — no claim mentions them.

`scipy.stats.ks_2samp` returns the exact/asymptotic p-value of the two-sample
Kolmogorov-Smirnov test; that numerical routine is represented by an abstract
function `pv` of the KS statistic and the two sample sizes.  Any valid
p-value satisfies `pv 0 n m = 1` (the probability of a statistic ≥ 0 is 1),
which is the only property the theorem needs. -/

structure DriftCol where
  name : String
  vals : List (Option ℚ)
deriving DecidableEq

structure DriftDetail where
  mean_old : ℚ
  mean_new : ℚ
  mean_drift : ℚ
  mean_drift_percent : ℚ
  median_old : ℚ
  median_new : ℚ
  median_drift : ℚ
  min_old : ℚ
  max_old : ℚ
  min_new : ℚ
  max_new : ℚ
  wasserstein_distance : ℚ
  normalized_drift : ℚ
  ks_statistic : ℚ
  ks_pvalue : ℚ
  distribution_changed : Bool
  severity : String
deriving DecidableEq

/-- `dropna()` on a numeric series. -/
def dropnaQ (l : List (Option ℚ)) : List ℚ := l.filterMap id

/-- `Series.mean()` of a non-empty series. -/
def meanOf (xs : List ℚ) : ℚ := xs.sum / (xs.length : ℚ)

/-- `Series.median()` of a non-empty series (total, defaulting to 0 on the
empty list, which the ≥10-values guard rules out). -/
def medianOfQ (xs : List ℚ) : ℚ := (medianQ xs).getD 0

def listMinQ : List ℚ → ℚ
  | [] => 0
  | x :: r => r.foldl min x

def listMaxQ : List ℚ → ℚ
  | [] => 0
  | x :: r => r.foldl max x

/-- Empirical CDF of a sample at a point: the fraction of values `≤ t`
(`searchsorted(..., 'right') / n` in the scipy computation). -/
def cdfAt (xs : List ℚ) (t : ℚ) : ℚ :=
  ((xs.countP fun x => decide (x ≤ t)) : ℚ) / (xs.length : ℚ)

/-- The summand chain of `scipy.stats.wasserstein_distance`: over the sorted
pooled values, sum `|F_u - F_v|` at each point times the gap to the next. -/
def wSum (u v : List ℚ) : List ℚ → ℚ
  | [] => 0
  | [_] => 0
  | a :: b :: rest => |cdfAt u a - cdfAt v a| * (b - a) + wSum u v (b :: rest)

/-- `scipy.stats.wasserstein_distance(u, v)`. -/
def wassersteinQ (u v : List ℚ) : ℚ := wSum u v (sortQ (u ++ v))

/-- The two-sample Kolmogorov-Smirnov statistic: `sup |F_u - F_v|` over the
pooled sample points. -/
def ksStatQ (u v : List ℚ) : ℚ :=
  ((sortQ (u ++ v)).map fun z => |cdfAt u z - cdfAt v z|).foldr max 0

/-- `classify_severity` thresholds on the normalized drift (drift.py, lines
26-34). -/
def classifyDriftSeverity (val : ℚ) : String :=
  if val < 1/10 then "None"
  else if val < 3/10 then "Low"
  else if val < 7/10 then "Medium"
  else "High"

/-- The identifier-like name filter of the drift and outlier analyzers. -/
def isIdLikeName (nm : String) : Bool :=
  ["id", "key", "index", "number", "code"].any fun p => strContains (strLower nm) p

/-- The per-column numeric drift computation (drift.py, lines 36-96): skip
(`none`) when either side has fewer than 10 non-null values; the normalized
drift divides the Wasserstein distance by the old-side range when that range
is positive and is the sentinel 0 otherwise; the distribution is flagged as
changed when the KS p-value is below 0.05. -/
def driftColDetail (pv : ℚ → ℕ → ℕ → ℚ) (oldv newv : List (Option ℚ)) :
    Option DriftDetail :=
  let o := dropnaQ oldv
  let n := dropnaQ newv
  if o.length < 10 ∨ n.length < 10 then none
  else
    let mo := meanOf o
    let mn := meanOf n
    let w := wassersteinQ o n
    let ks := ksStatQ o n
    let p := pv ks o.length n.length
    let nd := if listMaxQ o - listMinQ o > 0 then w / (listMaxQ o - listMinQ o) else 0
    some { mean_old := mo
           mean_new := mn
           mean_drift := |mn - mo|
           mean_drift_percent := if mo ≠ 0 then pyRound2 (|mn - mo| / |mo| * 100) else 0
           median_old := medianOfQ o
           median_new := medianOfQ n
           median_drift := |medianOfQ n - medianOfQ o|
           min_old := listMinQ o
           max_old := listMaxQ o
           min_new := listMinQ n
           max_new := listMaxQ n
           wasserstein_distance := w
           normalized_drift := nd
           ks_statistic := ks
           ks_pvalue := p
           distribution_changed := decide (p < 1/20)
           severity := classifyDriftSeverity nd }

/-- `analyze_drift` (drift.py, lines 6-96, numeric part): the checked columns
are the schema intersection minus identifier-like names; each side's column
is looked up by name.  The "no common numeric columns" early return is the
empty detail list here. -/
def analyze_drift (dfOld dfNew : List DriftCol) (pv : ℚ → ℕ → ℕ → ℚ) :
    List (String × DriftDetail) :=
  let names := (dfOld.map DriftCol.name).filter fun nm =>
    (dfNew.any fun c => c.name == nm) && !(isIdLikeName nm)
  names.filterMap fun nm =>
    match dfOld.find? (fun c => c.name == nm), dfNew.find? (fun c => c.name == nm) with
    | some o, some c2 => (driftColDetail pv o.vals c2.vals).map fun dd => (nm, dd)
    | _, _ => none

/-! ### Drift on identical datasets -/

theorem wSum_self (u : List ℚ) (zs : List ℚ) : wSum u u zs = 0 := by
  induction zs with
  | nil => rfl
  | cons a tail ih =>
    cases tail with
    | nil => rfl
    | cons b rest =>
      show |cdfAt u a - cdfAt u a| * (b - a) + wSum u u (b :: rest) = 0
      rw [sub_self, abs_zero, zero_mul, zero_add]
      exact ih

theorem wassersteinQ_self (u : List ℚ) : wassersteinQ u u = 0 :=
  wSum_self u (sortQ (u ++ u))

theorem foldr_max_zero (l : List ℚ) (h : ∀ x ∈ l, x = 0) : l.foldr max 0 = 0 := by
  induction l with
  | nil => rfl
  | cons a rest ih =>
    show max a (rest.foldr max 0) = 0
    rw [h a (List.mem_cons_self a rest), ih fun x hx => h x (List.mem_cons_of_mem a hx)]
    exact max_self 0

theorem ksStatQ_self (u : List ℚ) : ksStatQ u u = 0 := by
  unfold ksStatQ
  apply foldr_max_zero
  intro x hx
  obtain ⟨z, _, rfl⟩ := List.mem_map.mp hx
  rw [sub_self, abs_zero]

theorem driftColDetail_self (pv : ℚ → ℕ → ℕ → ℚ) (hpv : ∀ n m : ℕ, pv 0 n m = 1)
    (v : List (Option ℚ)) (dd : DriftDetail)
    (h : driftColDetail pv v v = some dd) :
    dd.normalized_drift = 0 ∧ dd.distribution_changed = false := by
  unfold driftColDetail at h
  dsimp only at h
  split at h
  · exact absurd h (by simp)
  · rw [Option.some_inj] at h
    subst h
    constructor
    · show (if listMaxQ (dropnaQ v) - listMinQ (dropnaQ v) > 0 then
          wassersteinQ (dropnaQ v) (dropnaQ v)
            / (listMaxQ (dropnaQ v) - listMinQ (dropnaQ v))
        else 0) = 0
      rw [wassersteinQ_self]
      split
      · exact zero_div _
      · rfl
    · show decide (pv (ksStatQ (dropnaQ v) (dropnaQ v)) (dropnaQ v).length
          (dropnaQ v).length < 1/20) = false
      rw [ksStatQ_self, hpv]
      exact decide_eq_false (by norm_num)

/-- C6. Running the drift analyzer on a dataset against an identical copy of
itself yields, for every qualifying numeric column (non-identifier name,
≥10 non-null values on both sides), `normalized_drift = 0` (the
zero-range-column sentinel included) and `distribution_changed = False` —
for every valid KS p-value function, i.e. any with `pv 0 n m = 1`. -/
theorem drift_self_zero (d : List DriftCol) (pv : ℚ → ℕ → ℕ → ℚ)
    (hpv : ∀ n m : ℕ, pv 0 n m = 1) :
    ((analyze_drift d d pv).all fun p =>
      decide (p.2.normalized_drift = 0) && !p.2.distribution_changed) = true := by
  rw [List.all_eq_true]
  intro p hp
  unfold analyze_drift at hp
  obtain ⟨nm, _, hf⟩ := List.mem_filterMap.mp hp
  cases hfind : d.find? (fun c => c.name == nm) with
  | none => rw [hfind] at hf; exact absurd hf (by simp)
  | some o =>
    rw [hfind] at hf
    simp only at hf
    obtain ⟨dd, hdd, hpeq⟩ := Option.map_eq_some'.mp hf
    obtain ⟨h1, h2⟩ := driftColDetail_self pv hpv o.vals dd hdd
    subst hpeq
    simp [h1, h2]

/-- Concrete dataset and p-value function for the C6 witness: one qualifying
column with 10 distinct values. -/
def dfW6 : List DriftCol :=
  [{ name := "value", vals := (List.range 10).map fun i => some (i : ℚ) }]

/-- Constant-one p-value function instantiating the abstract KS p-value. -/
def pvW6 : ℚ → ℕ → ℕ → ℚ := fun _ _ _ => 1

/-- C6 witness: on the concrete dataset the analyzer checks exactly one
column and reports zero normalized drift and no distribution change. -/
theorem drift_self_zero_witness :
    (analyze_drift dfW6 dfW6 pvW6).length = 1 ∧
    ((analyze_drift dfW6 dfW6 pvW6).all fun p =>
      decide (p.2.normalized_drift = 0) && !p.2.distribution_changed) = true :=
  ⟨by with_unfolding_all decide, drift_self_zero dfW6 pvW6 fun _ _ => rfl⟩
